import Mathlib

/-!
Verification of the Commute-ai backend route-search pipeline.

This file gives a shallow embedding, in Lean, of the data model and of the
itinerary enrichment pipeline of the backend:

* the pydantic schemas (app/schemas/geo.py, location.py, itinary.py,
  insight.py, ai_agents.py, routes.py), with machine floats modelled as
  rationals and datetimes modelled as integer timestamps;
* the preference stores and their point reads
  (app/models/preference.py, route_preference.py,
  app/services/preference_service.py, route_preference_service.py);
* the routing-service failure taxonomy and response parsing
  (app/services/routing_service.py);
* the search endpoint app/api/v1/endpoints/routes.py: preference
  aggregation, the guarded insight call, graceful degradation, response
  construction and the exception-to-HTTP mapping.

External collaborators (the HSL GraphQL provider, the AI-agents HTTP
service, the database session) are modelled by passing their outcome as an
explicit argument: a routing call outcome is a RoutingResult, an insight
call outcome is an InsightOutcome, a guarded database read is an
Except Unit value.  Pydantic validation of a response model is modelled
explicitly, because the search endpoint relies on it: a value is accepted
for a field of a model type exactly when it is an instance of that model,
and a required field cannot be absent.
-/

namespace CommuteAi

/-- Transport modes, the closed enumeration from app/schemas/itinary.py. -/
inductive TransportMode where
  | WALK | BICYCLE | CAR | TRAM | SUBWAY | RAIL | BUS | FERRY
  deriving DecidableEq, Repr

/-- Geographic coordinates, app/schemas/geo.py.  Latitude and longitude are
machine floats in the source; they are modelled as rationals. -/
structure Coordinates where
  latitude : ℚ
  longitude : ℚ
  deriving DecidableEq, Repr

/-- Latitude bound check from app/schemas/geo.py: the pydantic field
constraint (ge -90, le 90) and the field validator enforce the same range. -/
def validLatitude (v : ℚ) : Bool :=
  -90 ≤ v && v ≤ 90

/-- Longitude bound check from app/schemas/geo.py: the pydantic field
constraint (ge -180, le 180) and the field validator enforce the same range. -/
def validLongitude (v : ℚ) : Bool :=
  -180 ≤ v && v ≤ 180

/-- Validated construction of Coordinates: pydantic accepts the value when
both bound checks pass and raises a validation error otherwise. -/
def Coordinates.make (lat lon : ℚ) : Option Coordinates :=
  if validLatitude lat && validLongitude lon then some ⟨lat, lon⟩ else none

/-- A place with metadata, app/schemas/location.py. -/
structure Place where
  coordinates : Coordinates
  name : Option String
  deriving DecidableEq, Repr

/-- Route information for a leg, app/schemas/itinary.py. -/
structure Route where
  short_name : String
  long_name : String
  description : Option String
  deriving DecidableEq, Repr

/-- A single segment of a journey, app/schemas/itinary.py.  The start and
end datetimes are modelled as integer timestamps. -/
structure Leg where
  mode : TransportMode
  startTime : Int
  endTime : Int
  duration : Int
  distance : ℚ
  from_place : Place
  to_place : Place
  route : Option Route
  deriving DecidableEq, Repr

/-- A complete journey from origin to destination, app/schemas/itinary.py. -/
structure Itinerary where
  startTime : Int
  endTime : Int
  duration : Int
  walk_distance : ℚ
  walk_time : Int
  legs : List Leg
  deriving DecidableEq, Repr

/-- Insight for a single leg, returned by the AI-agents service
(app/schemas/ai_agents.py, class LegInsight): a required string. -/
structure LegInsight where
  ai_insight : String
  deriving DecidableEq, Repr

/-- Insight for a complete itinerary, returned by the AI-agents service
(app/schemas/ai_agents.py, class ItineraryInsight). -/
structure ItineraryInsight where
  ai_insight : String
  leg_insights : List LegInsight
  deriving DecidableEq, Repr

/-- A leg of the declared search response, app/schemas/insight.py, class
LegWithInsight(Leg): all Leg fields plus a required insight string. -/
structure LegWithInsight extends Leg where
  ai_insight : String
  deriving DecidableEq, Repr

/-- An itinerary of the declared search response, app/schemas/insight.py,
class ItineraryWithInsight(Itinerary): all Itinerary fields, a required
insight string, and legs overridden to the insight-carrying leg type. -/
structure ItineraryWithInsight where
  startTime : Int
  endTime : Int
  duration : Int
  walk_distance : ℚ
  walk_time : Int
  ai_insight : String
  legs : List LegWithInsight
  deriving DecidableEq, Repr

/-- Forgetting the insight of a response itinerary gives back a plain
itinerary: used to state that the pipeline does not alter or reorder the
routed itineraries and their legs. -/
def ItineraryWithInsight.toItinerary (w : ItineraryWithInsight) : Itinerary :=
  ⟨w.startTime, w.endTime, w.duration, w.walk_distance, w.walk_time,
    w.legs.map LegWithInsight.toLeg⟩

/-- Runtime shape of a leg inside the endpoint pipeline: a leg whose insight
text is either present or absent.  A plain Leg instance has no insight; a
LegWithInsight instance always has one. -/
structure LegOut extends Leg where
  ai_insight : Option String
  deriving DecidableEq, Repr

/-- Runtime shape of an itinerary inside the endpoint pipeline: insight text
either present or absent on the itinerary and on each leg.  A plain
Itinerary instance has no insight anywhere; an ItineraryWithInsight
instance has it everywhere. -/
structure ItineraryOut where
  startTime : Int
  endTime : Int
  duration : Int
  walk_distance : ℚ
  walk_time : Int
  ai_insight : Option String
  legs : List LegOut
  deriving DecidableEq, Repr

/-- The plain-itinerary view of a runtime itinerary: drop the insight
fields. -/
def ItineraryOut.core (o : ItineraryOut) : Itinerary :=
  ⟨o.startTime, o.endTime, o.duration, o.walk_distance, o.walk_time,
    o.legs.map LegOut.toLeg⟩

/-- A plain Itinerary as it flows through the pipeline: no insight text on
the itinerary or on any leg.  This is the degraded value the endpoint
returns when the insight call fails. -/
def Itinerary.plainOut (it : Itinerary) : ItineraryOut :=
  ⟨it.startTime, it.endTime, it.duration, it.walk_distance, it.walk_time,
    none, it.legs.map (fun l => ⟨l, none⟩)⟩

/-- The embedding of a response itinerary into the optional-insight runtime
shape: every insight field is present. -/
def ItineraryWithInsight.toOut (w : ItineraryWithInsight) : ItineraryOut :=
  ⟨w.startTime, w.endTime, w.duration, w.walk_distance, w.walk_time,
    some w.ai_insight, w.legs.map (fun l => ⟨l.toLeg, some l.ai_insight⟩)⟩

/-- Pydantic validation of one leg against the declared response leg type
LegWithInsight: the field ai_insight is required, so a leg without insight
text is rejected. -/
def LegOut.validate (l : LegOut) : Option LegWithInsight :=
  match l.ai_insight with
  | some s => some ⟨l.toLeg, s⟩
  | none => none

/-- Pydantic validation of a list of legs: every element must validate. -/
def validateLegs : List LegOut → Option (List LegWithInsight)
  | [] => some []
  | l :: ls =>
    match l.validate, validateLegs ls with
    | some w, some ws => some (w :: ws)
    | _, _ => none

/-- Pydantic validation of one itinerary against the declared response
itinerary type ItineraryWithInsight (app/schemas/insight.py): the
itinerary-level ai_insight is required and every leg must itself validate
as a LegWithInsight.  A plain Itinerary instance therefore never
validates. -/
def ItineraryOut.validate (o : ItineraryOut) : Option ItineraryWithInsight :=
  match o.ai_insight, validateLegs o.legs with
  | some s, some ws =>
    some ⟨o.startTime, o.endTime, o.duration, o.walk_distance, o.walk_time, s, ws⟩
  | _, _ => none

/-- Pydantic validation of the itineraries field of RouteSearchResponse
(app/schemas/routes.py, List of ItineraryWithInsight): every element must
validate, otherwise constructing the response model raises. -/
def validateItineraries : List ItineraryOut → Option (List ItineraryWithInsight)
  | [] => some []
  | o :: os =>
    match o.validate, validateItineraries os with
    | some w, some ws => some (w :: ws)
    | _, _ => none

/-- Request schema for the search endpoint after validation,
app/schemas/routes.py, class RouteSearchRequest. -/
structure RouteSearchRequest where
  origin : Coordinates
  destination : Coordinates
  earliest_departure : Option Int
  num_itineraries : Int
  preferences : Option (List String)
  deriving DecidableEq, Repr

/-- Response schema of the search endpoint, app/schemas/routes.py, class
RouteSearchResponse: the itineraries field is a list of
ItineraryWithInsight, each carrying required insight strings. -/
structure RouteSearchResponse where
  origin : Coordinates
  destination : Coordinates
  itineraries : List ItineraryWithInsight
  search_time : Int
  deriving DecidableEq, Repr

/-- Raw body of a search request, before request validation: coordinates
not yet checked, count and preference fields possibly omitted. -/
structure RawSearchRequest where
  origin_latitude : ℚ
  origin_longitude : ℚ
  destination_latitude : ℚ
  destination_longitude : ℚ
  earliest_departure : Option Int
  num_itineraries : Option Int
  preferences : Option (List String)
  deriving DecidableEq, Repr

/-- Validation of the itinerary count, app/schemas/routes.py: the field
declares default 3, ge 1, le 10; an omitted count becomes 3 and an
out-of-range count is a validation error. -/
def parseNumItineraries : Option Int → Option Int
  | none => some 3
  | some v => if 1 ≤ v ∧ v ≤ 10 then some v else none

/-- FastAPI request validation of the search body: both coordinate pairs
must be in range and the count must parse; this runs before the endpoint
body, so an invalid request is rejected before any service is invoked. -/
def validateSearchRequest (raw : RawSearchRequest) : Option RouteSearchRequest :=
  match Coordinates.make raw.origin_latitude raw.origin_longitude,
        Coordinates.make raw.destination_latitude raw.destination_longitude,
        parseNumItineraries raw.num_itineraries with
  | some o, some d, some n =>
    some ⟨o, d, raw.earliest_departure, n, raw.preferences⟩
  | _, _, _ => none

/-- A stored global preference row, app/models/preference.py: owning user
id and the prompt string (id and timestamps are not read by the search
pipeline and are omitted). -/
structure Preference where
  user_id : Int
  prompt : String
  deriving DecidableEq, Repr

/-- Point read of all preferences of a user,
app/services/preference_service.py, PreferenceService.get_user_preferences:
filter the store by user id. -/
def getUserPreferences (db : List Preference) (uid : Int) : List Preference :=
  db.filter (fun p => p.user_id == uid)

/-- A stored route-specific preference row, app/models/route_preference.py:
owning user id, prompt, and the four stored coordinates. -/
structure RoutePreference where
  user_id : Int
  prompt : String
  from_latitude : ℚ
  from_longitude : ℚ
  to_latitude : ℚ
  to_longitude : ℚ
  deriving DecidableEq, Repr

/-- Point read of all route preferences of a user,
app/services/route_preference_service.py,
RoutePreferenceService.get_user_preferences: filter the store by user id
only; the service exposes no coordinate-filtered query. -/
def getRoutePreferencesOfUser (db : List RoutePreference) (uid : Int) :
    List RoutePreference :=
  db.filter (fun p => p.user_id == uid)

/-- Routing-service failure taxonomy, app/services/routing_service.py:
RoutingAPIError (the provider responded with an error), RoutingNetworkError
(timeout or connection failure), RoutingDataError (response could not be
parsed), RoutingServiceError (anything else, wrapped by the final handler
of get_itinaries).  Each carries the stringified exception message. -/
inductive RoutingFailure where
  | apiError (msg : String)
  | networkError (msg : String)
  | dataError (msg : String)
  | serviceError (msg : String)
  deriving DecidableEq, Repr

/-- Outcome of the routing call made by the search endpoint: a parsed
itinerary list, or one of the four classified failures. -/
inductive RoutingResult where
  | ok (its : List Itinerary)
  | failure (e : RoutingFailure)
  deriving DecidableEq, Repr

/-- Externally visible HTTP error of the endpoint: status code and the
detail string of the raised HTTPException. -/
structure HttpError where
  status : Nat
  detail : String
  deriving DecidableEq, Repr

/-- The exception-to-HTTP mapping of the search endpoint,
app/api/v1/endpoints/routes.py, except-clauses after the routing call: each
failure class gets its own status code and detail text built from the
message. -/
def routingErrorResponse : RoutingFailure → HttpError
  | .apiError m => ⟨502, "HSL API error: " ++ m⟩
  | .networkError m => ⟨503, "Network error connecting to HSL API: " ++ m⟩
  | .dataError m => ⟨502, "Failed to parse HSL API response: " ++ m⟩
  | .serviceError m => ⟨500, "Routing service error: " ++ m⟩

/-- The four spec-level failure categories of the routing call. -/
inductive RoutingFailureKind where
  | provider | network | invalidData | unclassified
  deriving DecidableEq, Repr

/-- The category of a classified routing failure. -/
def RoutingFailure.kind : RoutingFailure → RoutingFailureKind
  | .apiError _ => .provider
  | .networkError _ => .network
  | .dataError _ => .invalidData
  | .serviceError _ => .unclassified

/-- Client-side decoding of the failure category from the externally
visible response alone: the status code separates network (503) and
unclassified (500) from the two 502 cases, and the fixed leading character
of the detail text separates the provider case (detail starts with
HSL API error) from the data case (detail starts with Failed to parse). -/
def classifyResponse (r : HttpError) : Option RoutingFailureKind :=
  if r.status = 503 then some .network
  else if r.status = 502 then
    match r.detail.data.head? with
    | some c =>
      if c = 'H' then some .provider
      else if c = 'F' then some .invalidData
      else none
    | none => none
  else if r.status = 500 then
    match r.detail.data.head? with
    | some c => if c = 'R' then some .unclassified else none
    | none => none
  else none

/-- A decoded leg node of the GraphQL routing response,
app/services/routing_service.py, consumed by the private leg parser.  The
datetime and transport-mode decoding steps are abstracted as already
decoded values; a decoding failure surfaces as RoutingDataError and is part
of the failure taxonomy, not of this shape. -/
structure RawLeg where
  mode : TransportMode
  startTime : Int
  endTime : Int
  duration : Int
  distance : ℚ
  from_place : Place
  to_place : Place
  route : Option Route
  deriving DecidableEq, Repr

/-- A decoded itinerary node of the GraphQL routing response,
app/services/routing_service.py. -/
structure RawNode where
  startTime : Int
  endTime : Int
  duration : Int
  walk_distance : ℚ
  walk_time : Int
  legs : List RawLeg
  deriving DecidableEq, Repr

/-- An edge of the GraphQL plan connection: wraps one node. -/
structure RawEdge where
  node : RawNode
  deriving DecidableEq, Repr

/-- The GraphQL routing response body: the plan connection and its edge
list may each be absent, in which case the parser falls back to an empty
edge list. -/
structure RawData where
  planConnection : Option (Option (List RawEdge))
  deriving DecidableEq, Repr

/-- Leg parser of the routing service, RoutingService private leg parser:
field-by-field translation of one leg node. -/
def parseLeg (d : RawLeg) : Leg :=
  ⟨d.mode, d.startTime, d.endTime, d.duration, d.distance,
    d.from_place, d.to_place, d.route⟩

/-- Itinerary parser of the routing service: one node becomes one
Itinerary, with its legs parsed in the order they appear. -/
def parseItinary (d : RawNode) : Itinerary :=
  ⟨d.startTime, d.endTime, d.duration, d.walk_distance, d.walk_time,
    d.legs.map parseLeg⟩

/-- Itinerary-list parser of the routing service: one itinerary per edge,
in edge order, with missing plan connection or edge list read as empty. -/
def parseItinaries (d : RawData) : List Itinerary :=
  (((d.planConnection.getD (some [])).getD [])).map (fun e => parseItinary e.node)

/-- Modelled from the spec: the bulk insight method
get_itineraries_with_insights that the search endpoint awaits on the
AI-agents service is absent from the source (its tests mock it and the
endpoint calls it, but no implementation exists in src).  Following the
spec, section 4.2 step 5, the leg merge is positional: the leg at position
j receives the leg insight at position j when one exists and keeps no
insight text otherwise.  The same positional rule appears in the in-source
per-leg loop of AiAgentsService.get_itinerary_insight. -/
def mergeLegInsights : List Leg → List LegInsight → List LegOut
  | [], _ => []
  | l :: ls, [] => ⟨l, none⟩ :: mergeLegInsights ls []
  | l :: ls, s :: ss => ⟨l, some s.ai_insight⟩ :: mergeLegInsights ls ss

/-- Modelled from the spec: enrichment of a single itinerary with its
insight entry, section 4.2 step 5: set the itinerary-level insight text and
merge the leg insights positionally. -/
def enrichItinerary (it : Itinerary) (e : ItineraryInsight) : ItineraryOut :=
  ⟨it.startTime, it.endTime, it.duration, it.walk_distance, it.walk_time,
    some e.ai_insight, mergeLegInsights it.legs e.leg_insights⟩

/-- Modelled from the spec: the positional merge of the insight response
onto the itinerary list, section 4.2 step 5: the itinerary at position i is
enriched with the insight entry at position i when one exists; the
unmatched tail keeps no insight text; nothing is reordered, dropped or
added. -/
def mergeInsights : List Itinerary → List ItineraryInsight → List ItineraryOut
  | [], _ => []
  | it :: its, [] => it.plainOut :: mergeInsights its []
  | it :: its, e :: es => enrichItinerary it e :: mergeInsights its es

/-- Preference aggregation of the search endpoint,
app/api/v1/endpoints/routes.py: start from the request preferences when the
field is truthy, then append the prompts of the stored preferences; the
stored read is guarded, and a failed read contributes nothing.  No source
is deduplicated and no other source is consulted. -/
def aggregatePreferences (reqPrefs : Option (List String))
    (stored : Except Unit (List Preference)) : List String :=
  (match reqPrefs with
    | some ps => ps
    | none => []) ++
  (match stored with
    | .ok l => l.map Preference.prompt
    | .error _ => [])

/-- Preference argument of the insight call,
app/api/v1/endpoints/routes.py: the aggregated list itself when it is
non-empty, and the absent value (None) when it is empty, following the
truthiness test in the call. -/
def insightCallPrefs (l : List String) : Option (List String) :=
  if l.isEmpty then none else some l

/-- Arguments the endpoint hands to the insight call, when that call is
reached: after a successful routing call the endpoint always invokes the
insight service with the full itinerary list and the aggregated
preferences; after a routing failure the call is never reached. -/
def insightCallInput (req : RouteSearchRequest)
    (stored : Except Unit (List Preference)) (routing : RoutingResult) :
    Option (List Itinerary × Option (List String)) :=
  match routing with
  | .ok its => some (its, insightCallPrefs (aggregatePreferences req.preferences stored))
  | .failure _ => none

/-- Outcome of the guarded insight call: the insight entries of a
successful adapter response, or a single failure case covering every
exception, timeout, non-success status and malformed payload. -/
inductive InsightOutcome where
  | ok (entries : List ItineraryInsight)
  | failure
  deriving DecidableEq, Repr

/-- Construction of the response model at the end of the endpoint,
app/api/v1/endpoints/routes.py: pydantic validates the final itinerary list
against the declared field type.  A validation failure is an exception
inside the outer try block and is caught by the generic handler, which
raises HTTP 500 with a fixed detail. -/
def buildResponse (origin destination : Coordinates)
    (fins : List ItineraryOut) (t : Int) : Except HttpError RouteSearchResponse :=
  match validateItineraries fins with
  | some ws => .ok ⟨origin, destination, ws, t⟩
  | none => .error ⟨500, "An unexpected error occurred while searching for routes"⟩

/-- The search endpoint body after request validation,
app/api/v1/endpoints/routes.py, search_routes: a routing failure maps to
its classified HTTP error; otherwise the guarded insight call either
succeeds, giving the merged list (replaced by the plain itineraries when it
is empty, following the truthiness test on the result), or fails, and the
endpoint degrades to the plain itineraries; finally the response model is
constructed from the chosen list. -/
def searchRoutes (req : RouteSearchRequest)
    (stored : Except Unit (List Preference)) (routing : RoutingResult)
    (insight : InsightOutcome) (searchTime : Int) :
    Except HttpError RouteSearchResponse :=
  match routing with
  | .failure e => .error (routingErrorResponse e)
  | .ok its =>
    buildResponse req.origin req.destination
      (match insight with
        | .ok es =>
          if (mergeInsights its es).isEmpty then its.map Itinerary.plainOut
          else mergeInsights its es
        | .failure => its.map Itinerary.plainOut)
      searchTime

/-- The full HTTP surface of the search operation: request validation
first, with status 422 on failure and without reaching any service, then
the endpoint body. -/
def handleSearch (raw : RawSearchRequest)
    (stored : Except Unit (List Preference)) (routing : RoutingResult)
    (insight : InsightOutcome) (searchTime : Int) :
    Except HttpError RouteSearchResponse :=
  match validateSearchRequest raw with
  | none => .error ⟨422, "request validation error"⟩
  | some req => searchRoutes req stored routing insight searchTime

/-! Concrete sample values used by the witness and counterexample
theorems. -/

/-- A sample walking leg. -/
def sampleWalkLeg : Leg :=
  ⟨.WALK, 0, 600, 600, 500, ⟨⟨60, 24⟩, some "Origin"⟩,
    ⟨⟨61, 25⟩, some "Bus Stop"⟩, none⟩

/-- A sample bus leg with route information. -/
def sampleBusLeg : Leg :=
  ⟨.BUS, 600, 2700, 2100, 15000, ⟨⟨61, 25⟩, some "Bus Stop"⟩,
    ⟨⟨62, 26⟩, some "Destination"⟩,
    some ⟨"550", "Helsinki - Espoo", some "Express bus service"⟩⟩

/-- A sample two-leg itinerary, walk then bus. -/
def sampleItinerary : Itinerary := ⟨0, 2700, 2700, 500, 600, [sampleWalkLeg, sampleBusLeg]⟩

/-- A second sample itinerary with a single leg. -/
def sampleItineraryB : Itinerary := ⟨0, 3000, 3000, 200, 300, [sampleBusLeg]⟩

/-- A sample search request without preferences. -/
def sampleRequest : RouteSearchRequest := ⟨⟨60, 24⟩, ⟨61, 25⟩, none, 3, none⟩

/-- An insight entry holding one leg insight, fewer than the two legs of
the sample itinerary. -/
def sampleEntry : ItineraryInsight := ⟨"Good route overall", [⟨"Short walk"⟩]⟩

/-! Claim theorems. -/

/-- C1: claimed behavior is that any insight failure degrades to a
successful response carrying the unenriched itineraries.  The code
violates this: the degraded plain itineraries cannot validate against the
declared response type, whose insight fields are required, so the response
construction raises and the generic handler turns the request into an
HTTP 500.  This theorem evaluates the endpoint at the failing input: one
routed itinerary and a failing insight call. -/
theorem c1_insight_failure_gives_500 :
    searchRoutes sampleRequest (.ok []) (.ok [sampleItinerary]) .failure 0 =
      .error ⟨500, "An unexpected error occurred while searching for routes"⟩ := by
  rfl

/-- C2: request preferences for the search evaluated at the failing input
of the claim.  The aggregated list handed to the insight call is exactly
the request preferences followed by the stored global prompts of the user;
the stored route preference whose four coordinates equal the searched
origin and destination is never consulted, because the endpoint reads no
route-preference source at all.  The last conjunct checks that the stored
route preference does match the searched coordinates exactly, so the claim
would require its prompt in the list. -/
theorem c2_route_preferences_not_consulted :
    insightCallInput
        ⟨⟨60.1699, 24.9384⟩, ⟨60.2055, 24.6559⟩, none, 3,
          some ["prefer faster routes"]⟩
        (.ok (getUserPreferences [⟨1, "I prefer eco-friendly routes"⟩, ⟨2, "another user"⟩] 1))
        (.ok [sampleItinerary]) =
      some ([sampleItinerary],
        some ["prefer faster routes", "I prefer eco-friendly routes"]) ∧
    (getRoutePreferencesOfUser
        [⟨1, "Avoid construction on this route", 60.1699, 24.9384, 60.2055, 24.6559⟩]
        1).map RoutePreference.prompt = ["Avoid construction on this route"] ∧
    (getRoutePreferencesOfUser
        [⟨1, "Avoid construction on this route", 60.1699, 24.9384, 60.2055, 24.6559⟩]
        1).map (fun p => (p.from_latitude, p.from_longitude, p.to_latitude, p.to_longitude)) =
      [((60.1699 : ℚ), (24.9384 : ℚ), (60.2055 : ℚ), (24.6559 : ℚ))] := by
  refine ⟨by decide, by decide, ?_⟩
  simp [getRoutePreferencesOfUser]

/-- C6 counterexample: with zero routed itineraries the endpoint does not
skip preference aggregation or the insight call: the insight service is
still invoked, with the empty itinerary list and the aggregated
preferences.  The claim says both are skipped. -/
theorem c6_insight_still_invoked_on_empty :
    insightCallInput ⟨⟨60, 24⟩, ⟨61, 25⟩, none, 3, some ["prefer trams"]⟩
        (.ok [⟨1, "eco"⟩]) (.ok []) =
      some ([], some ["prefer trams", "eco"]) := by
  decide

/-- C6 (amended): a routing result of zero itineraries produces a
successful response with an empty itinerary list, never an error, whatever
the insight outcome and the stored preferences are; preference aggregation
and the insight call still take place. -/
theorem c6_empty_routing_gives_ok_empty :
    ∀ (req : RouteSearchRequest) (stored : Except Unit (List Preference))
      (insight : InsightOutcome) (t : Int),
      searchRoutes req stored (.ok []) insight t =
        .ok ⟨req.origin, req.destination, [], t⟩ := by
  intro req stored insight t
  cases insight <;> rfl

/-- C7: the preference argument of the insight call is the absent value
when the aggregated list is empty and the list itself when it is
non-empty; and after a successful routing call the insight service is
invoked with exactly the routed itineraries and that argument. -/
theorem c7_empty_preferences_become_absent :
    (∀ l : List String, l = [] → insightCallPrefs l = none) ∧
    (∀ l : List String, l ≠ [] → insightCallPrefs l = some l) ∧
    (∀ (req : RouteSearchRequest) (stored : Except Unit (List Preference))
        (its : List Itinerary),
      insightCallInput req stored (.ok its) =
        some (its, insightCallPrefs (aggregatePreferences req.preferences stored))) := by
  refine ⟨?_, ?_, ?_⟩
  · intro l h
    subst h
    rfl
  · intro l h
    simp [insightCallPrefs, h]
  · intro req stored its
    rfl

/-- C7 witness: the two branches at concrete inputs. -/
theorem c7_witness :
    insightCallPrefs [] = none ∧
    insightCallPrefs ["prefer walking"] = some ["prefer walking"] :=
  ⟨c7_empty_preferences_become_absent.1 [] rfl,
    c7_empty_preferences_become_absent.2.1 ["prefer walking"] (by decide)⟩

/-- Character data of an appended string is the appended character data. -/
lemma append_data (s t : String) : (s ++ t).data = s.data ++ t.data := by
  cases s
  cases t
  rfl

/-- Leading character of the provider-error detail text. -/
lemma head_api_detail (m : String) : ("HSL API error: " ++ m).data.head? = some 'H' := by
  rw [append_data]
  rfl

/-- Leading character of the network-error detail text. -/
lemma head_network_detail (m : String) :
    ("Network error connecting to HSL API: " ++ m).data.head? = some 'N' := by
  rw [append_data]
  rfl

/-- Leading character of the data-error detail text. -/
lemma head_data_detail (m : String) :
    ("Failed to parse HSL API response: " ++ m).data.head? = some 'F' := by
  rw [append_data]
  rfl

/-- Leading character of the unclassified-error detail text. -/
lemma head_service_detail (m : String) :
    ("Routing service error: " ++ m).data.head? = some 'R' := by
  rw [append_data]
  rfl

/-- C3: the four routing failure classes are mapped to distinct externally
visible outcomes.  The classifier reads only the visible response, status
code and detail text, and recovers the failure category exactly, whatever
the wrapped exception messages are; so provider, network, data and
unclassified errors are pairwise distinguishable by the client.  The
second conjunct ties the mapping to the search operation itself. -/
theorem c3_failure_classes_distinguishable :
    (∀ e : RoutingFailure, classifyResponse (routingErrorResponse e) = some e.kind) ∧
    (∀ (req : RouteSearchRequest) (stored : Except Unit (List Preference))
        (e : RoutingFailure) (insight : InsightOutcome) (t : Int),
      searchRoutes req stored (.failure e) insight t = .error (routingErrorResponse e)) := by
  constructor
  · intro e
    cases e with
    | apiError m =>
      simp [routingErrorResponse, classifyResponse, head_api_detail m, RoutingFailure.kind]
    | networkError m =>
      simp [routingErrorResponse, classifyResponse, RoutingFailure.kind]
    | dataError m =>
      simp [routingErrorResponse, classifyResponse, head_data_detail m, RoutingFailure.kind]
    | serviceError m =>
      simp [routingErrorResponse, classifyResponse, head_service_detail m, RoutingFailure.kind]
  · intro req stored e insight t
    rfl

/-- C8: coordinate construction succeeds exactly when both bounds hold,
and a constructed value keeps the given values and satisfies the bounds. -/
theorem c8_coordinates_validated_at_construction :
    ∀ lat lon : ℚ,
      ((Coordinates.make lat lon).isSome ↔
        (-90 ≤ lat ∧ lat ≤ 90 ∧ -180 ≤ lon ∧ lon ≤ 180)) ∧
      (∀ c : Coordinates, Coordinates.make lat lon = some c →
        c.latitude = lat ∧ c.longitude = lon ∧
        -90 ≤ c.latitude ∧ c.latitude ≤ 90 ∧
        -180 ≤ c.longitude ∧ c.longitude ≤ 180) := by
  intro lat lon
  constructor
  · unfold Coordinates.make validLatitude validLongitude
    split_ifs with h
    · simp only [Option.isSome_some, true_iff]
      simp only [Bool.and_eq_true, decide_eq_true_eq] at h
      tauto
    · simp only [Option.isSome_none, false_iff]
      simp only [Bool.and_eq_true, decide_eq_true_eq, not_and] at h ⊢
      tauto
  · intro c hc
    unfold Coordinates.make validLatitude validLongitude at hc
    split_ifs at hc with h
    cases hc
    simp only [Bool.and_eq_true, decide_eq_true_eq] at h
    refine ⟨rfl, rfl, ?_, ?_, ?_, ?_⟩ <;> tauto

/-- C8 witness: an in-range pair is accepted and keeps its values with the
bounds; the bound facts come from applying the theorem at the accepted
value. -/
theorem c8_witness :
    (Coordinates.make 60 24).isSome ∧
    ((60 : ℚ) = 60 ∧ (24 : ℚ) = 24 ∧
      -90 ≤ (60 : ℚ) ∧ (60 : ℚ) ≤ 90 ∧ -180 ≤ (24 : ℚ) ∧ (24 : ℚ) ≤ 180) :=
  ⟨(c8_coordinates_validated_at_construction 60 24).1.mpr (by norm_num),
    (c8_coordinates_validated_at_construction 60 24).2 ⟨60, 24⟩ (by decide)⟩

/-- A raw search request with an out-of-range itinerary count. -/
def rawRequestBadCount : RawSearchRequest := ⟨60, 24, 61, 25, none, some 11, none⟩

/-- A raw search request with the count omitted. -/
def rawRequestNoCount : RawSearchRequest := ⟨60, 24, 61, 25, none, none, none⟩

/-- The validated request matching rawRequestNoCount. -/
def requestDefaultCount : RouteSearchRequest := ⟨⟨60, 24⟩, ⟨61, 25⟩, none, 3, none⟩

/-- C9: the itinerary count parses exactly when it lies in the interval
from 1 to 10, an omitted count defaults to 3, a validated request built
from a count-free raw request carries 3, an out-of-range count makes the
whole operation answer 422 whatever every service would do (so no service
outcome is consulted), and a raw request whose parts validate is
accepted. -/
theorem c9_count_bounds_and_default :
    (parseNumItineraries none = some 3) ∧
    (∀ v : Int, (parseNumItineraries (some v)).isSome ↔ (1 ≤ v ∧ v ≤ 10)) ∧
    (∀ (raw : RawSearchRequest) (req : RouteSearchRequest),
      validateSearchRequest raw = some req → raw.num_itineraries = none →
      req.num_itineraries = 3) ∧
    (∀ (raw : RawSearchRequest) (v : Int), raw.num_itineraries = some v →
      ¬(1 ≤ v ∧ v ≤ 10) →
      ∀ (stored : Except Unit (List Preference)) (routing : RoutingResult)
        (insight : InsightOutcome) (t : Int),
        handleSearch raw stored routing insight t =
          .error ⟨422, "request validation error"⟩) ∧
    (∀ raw : RawSearchRequest,
      (Coordinates.make raw.origin_latitude raw.origin_longitude).isSome →
      (Coordinates.make raw.destination_latitude raw.destination_longitude).isSome →
      (parseNumItineraries raw.num_itineraries).isSome →
      (validateSearchRequest raw).isSome) := by
  refine ⟨rfl, ?_, ?_, ?_, ?_⟩
  · intro v
    show (if 1 ≤ v ∧ v ≤ 10 then some v else none).isSome ↔ (1 ≤ v ∧ v ≤ 10)
    split_ifs with h
    · simpa using h
    · simpa using h
  · intro raw req hv hn
    unfold validateSearchRequest at hv
    rw [hn] at hv
    rcases ho : Coordinates.make raw.origin_latitude raw.origin_longitude with _ | o <;>
      rw [ho] at hv
    · cases hv
    rcases hd : Coordinates.make raw.destination_latitude raw.destination_longitude with _ | d <;>
      rw [hd] at hv
    · cases hv
    cases hv
    rfl
  · intro raw v hn hbad stored routing insight t
    have hp : parseNumItineraries raw.num_itineraries = none := by
      rw [hn]
      unfold parseNumItineraries
      exact if_neg hbad
    unfold handleSearch validateSearchRequest
    rw [hp]
    rcases Coordinates.make raw.origin_latitude raw.origin_longitude with _ | o <;>
      rcases Coordinates.make raw.destination_latitude raw.destination_longitude with _ | d <;>
      rfl
  · intro raw ho hd hn
    rcases Option.isSome_iff_exists.mp ho with ⟨o, ho⟩
    rcases Option.isSome_iff_exists.mp hd with ⟨d, hd⟩
    rcases Option.isSome_iff_exists.mp hn with ⟨n, hn⟩
    unfold validateSearchRequest
    rw [ho, hd, hn]
    rfl

/-- C9 witness: the count 11 is rejected with 422 before any service
outcome matters, and the count-free raw request validates to the default
count 3. -/
theorem c9_witness :
    handleSearch rawRequestBadCount (.ok []) (.ok []) .failure 0 =
      .error ⟨422, "request validation error"⟩ ∧
    requestDefaultCount.num_itineraries = 3 ∧
    (validateSearchRequest rawRequestNoCount).isSome :=
  ⟨c9_count_bounds_and_default.2.2.2.1 rawRequestBadCount 11 rfl (by decide)
      (.ok []) (.ok []) .failure 0,
    c9_count_bounds_and_default.2.2.1 rawRequestNoCount requestDefaultCount
      (by decide) rfl,
    c9_count_bounds_and_default.2.2.2.2 rawRequestNoCount (by decide) (by decide)
      (by decide)⟩

/-- A leg that validates against the response leg type carries insight
text. -/
lemma LegOut.validate_isSome {l : LegOut} {w : LegWithInsight}
    (h : l.validate = some w) : l.ai_insight.isSome := by
  unfold LegOut.validate at h
  rcases hl : l.ai_insight with _ | s
  · rw [hl] at h
    cases h
  · rfl

/-- A leg that validates keeps its plain-leg part. -/
lemma LegOut.validate_toLeg {l : LegOut} {w : LegWithInsight}
    (h : l.validate = some w) : w.toLeg = l.toLeg := by
  unfold LegOut.validate at h
  rcases hl : l.ai_insight with _ | s <;> rw [hl] at h
  · cases h
  · cases h
    rfl

/-- Every leg of a validated leg list carries insight text. -/
lemma validateLegs_mem_isSome :
    ∀ {ls : List LegOut} {ws : List LegWithInsight},
      validateLegs ls = some ws → ∀ lo ∈ ls, lo.ai_insight.isSome := by
  intro ls
  induction ls with
  | nil =>
    intro ws _ lo hlo
    cases hlo
  | cons l ls ih =>
    intro ws h lo hlo
    rcases hv : l.validate with _ | w <;>
      rcases hr : validateLegs ls with _ | ws2 <;>
      simp only [validateLegs, hv, hr] at h <;>
      try cases h
    rcases List.mem_cons.mp hlo with rfl | hlo2
    · exact LegOut.validate_isSome hv
    · exact ih hr lo hlo2

/-- Validation of a leg list keeps the plain legs, in order. -/
lemma validateLegs_toLeg :
    ∀ {ls : List LegOut} {ws : List LegWithInsight},
      validateLegs ls = some ws →
      ws.map LegWithInsight.toLeg = ls.map LegOut.toLeg := by
  intro ls
  induction ls with
  | nil =>
    intro ws h
    cases h
    rfl
  | cons l ls ih =>
    intro ws h
    rcases hv : l.validate with _ | w <;>
      rcases hr : validateLegs ls with _ | ws2 <;>
      simp only [validateLegs, hv, hr] at h <;>
      try cases h
    simp only [List.map_cons, ih hr, LegOut.validate_toLeg hv]

/-- C10: the declared response type cannot express a missing insight.
First conjunct: in every value of the response type, every itinerary
carries its insight text and every leg of it carries one.  Second
conjunct: a runtime itinerary only validates against the declared type
when the itinerary-level insight and every leg insight are present. -/
theorem c10_response_type_requires_insight :
    (∀ resp : RouteSearchResponse, ∀ w ∈ resp.itineraries,
      w.toOut.ai_insight = some w.ai_insight ∧
      ∀ lo ∈ w.toOut.legs, lo.ai_insight.isSome) ∧
    (∀ (o : ItineraryOut) (w : ItineraryWithInsight), o.validate = some w →
      o.ai_insight.isSome ∧ ∀ lo ∈ o.legs, lo.ai_insight.isSome) := by
  constructor
  · intro resp w _
    refine ⟨rfl, ?_⟩
    intro lo hlo
    simp only [ItineraryWithInsight.toOut, List.mem_map] at hlo
    obtain ⟨l, _, rfl⟩ := hlo
    rfl
  · intro o w hv
    unfold ItineraryOut.validate at hv
    rcases ho : o.ai_insight with _ | s <;>
      rcases hL : validateLegs o.legs with _ | ws <;>
      simp only [ho, hL] at hv <;>
      try cases hv
    exact ⟨rfl, validateLegs_mem_isSome hL⟩

/-- A sample response itinerary with insight text everywhere. -/
def sampleResponseItinerary : ItineraryWithInsight :=
  ⟨0, 2700, 2700, 500, 600, "Balanced route", [⟨sampleWalkLeg, "Nice walk"⟩]⟩

/-- A sample response value. -/
def sampleResponse : RouteSearchResponse :=
  ⟨⟨60, 24⟩, ⟨61, 25⟩, [sampleResponseItinerary], 0⟩

/-- C10 witness: the sample response itinerary carries its insight text,
and its first leg carries one. -/
theorem c10_witness :
    sampleResponseItinerary.toOut.ai_insight = some sampleResponseItinerary.ai_insight ∧
    (⟨sampleWalkLeg, some "Nice walk"⟩ : LegOut).ai_insight.isSome :=
  ⟨(c10_response_type_requires_insight.1 sampleResponse sampleResponseItinerary
      (by decide)).1,
    (c10_response_type_requires_insight.1 sampleResponse sampleResponseItinerary
      (by decide)).2 ⟨sampleWalkLeg, some "Nice walk"⟩ (by decide)⟩

/-- The positional merge never changes the number of itineraries. -/
lemma mergeInsights_length :
    ∀ (its : List Itinerary) (es : List ItineraryInsight),
      (mergeInsights its es).length = its.length := by
  intro its
  induction its with
  | nil =>
    intro es
    rfl
  | cons it its ih =>
    intro es
    cases es with
    | nil => simp [mergeInsights, ih]
    | cons e es => simp [mergeInsights, ih]

/-- Pointwise description of the positional merge: position i holds the
enrichment of itinerary i with entry i when entry i exists, and the plain
itinerary otherwise. -/
lemma mergeInsights_getElem? :
    ∀ (its : List Itinerary) (es : List ItineraryInsight) (i : Nat),
      (mergeInsights its es)[i]? =
        (its[i]?).map (fun it =>
          match es[i]? with
          | some e => enrichItinerary it e
          | none => it.plainOut) := by
  intro its
  induction its with
  | nil =>
    intro es i
    simp [mergeInsights]
  | cons it its ih =>
    intro es i
    cases es with
    | nil =>
      cases i with
      | zero => simp [mergeInsights]
      | succ n => simpa [mergeInsights] using ih [] n
    | cons e es =>
      cases i with
      | zero => simp [mergeInsights]
      | succ n => simpa [mergeInsights] using ih es n

/-- Pointwise description of the positional leg merge: leg j keeps its
plain part and receives the leg insight at position j when one exists. -/
lemma mergeLegInsights_getElem? :
    ∀ (legs : List Leg) (ls : List LegInsight) (j : Nat),
      (mergeLegInsights legs ls)[j]? =
        (legs[j]?).map (fun l => ⟨l, (ls[j]?).map LegInsight.ai_insight⟩) := by
  intro legs
  induction legs with
  | nil =>
    intro ls j
    simp [mergeLegInsights]
  | cons l legs ih =>
    intro ls j
    cases ls with
    | nil =>
      cases j with
      | zero => simp [mergeLegInsights]
      | succ n => simpa [mergeLegInsights] using ih [] n
    | cons s ls =>
      cases j with
      | zero => simp [mergeLegInsights]
      | succ n => simpa [mergeLegInsights] using ih ls n

/-- Positional merge with fewer insight entries than itineraries: the
merged list keeps the full length, positions up to the entry count are
enriched with their entry, the unmatched tail stays plain, an enriched
itinerary carries its entry text while a plain one carries none anywhere,
and the leg merge keeps every leg, attaching the leg insight at its
position when one exists and nothing otherwise.  This is the merge step in
isolation; the search operation wraps its result in the response
validation, which rejects any absent insight text. -/
lemma mergeInsights_truncation (its : List Itinerary)
    (es : List ItineraryInsight) (h : es.length < its.length) :
    ((mergeInsights its es).length = its.length) ∧
    (∀ i (hi : i < es.length),
      (mergeInsights its es)[i]? =
        some (enrichItinerary (its.get ⟨i, Nat.lt_trans hi h⟩) (es.get ⟨i, hi⟩))) ∧
    (∀ i, es.length ≤ i → ∀ hi : i < its.length,
      (mergeInsights its es)[i]? = some ((its.get ⟨i, hi⟩).plainOut)) ∧
    (∀ (it : Itinerary) (e : ItineraryInsight),
      (enrichItinerary it e).ai_insight = some e.ai_insight) ∧
    (∀ it : Itinerary, it.plainOut.ai_insight = none ∧
      ∀ lo ∈ it.plainOut.legs, lo.ai_insight = none) ∧
    (∀ (legs : List Leg) (ls : List LegInsight) (j : Nat) (hj : j < legs.length),
      (mergeLegInsights legs ls)[j]? =
        some ⟨legs.get ⟨j, hj⟩, (ls[j]?).map LegInsight.ai_insight⟩) := by
  refine ⟨mergeInsights_length its es, ?_, ?_, ?_, ?_, ?_⟩
  · intro i hi
    rw [mergeInsights_getElem?]
    rw [List.getElem?_eq_getElem (Nat.lt_trans hi h), List.getElem?_eq_getElem hi]
    simp [List.get_eq_getElem]
  · intro i hle hi
    rw [mergeInsights_getElem?]
    rw [List.getElem?_eq_getElem hi, List.getElem?_eq_none hle]
    simp [List.get_eq_getElem]
  · intro it e
    rfl
  · intro it
    refine ⟨rfl, ?_⟩
    intro lo hlo
    simp only [Itinerary.plainOut, List.mem_map] at hlo
    obtain ⟨l, _, rfl⟩ := hlo
    rfl
  · intro legs ls j hj
    rw [mergeLegInsights_getElem?, List.getElem?_eq_getElem hj]
    simp [List.get_eq_getElem]

/-- The merge facts at a concrete truncated input: two itineraries and a
single insight entry whose leg insights cover only the first of the two
legs. -/
lemma mergeInsights_truncation_example :
    (mergeInsights [sampleItinerary, sampleItineraryB] [sampleEntry]).length = 2 ∧
    (mergeInsights [sampleItinerary, sampleItineraryB] [sampleEntry])[0]? =
      some (enrichItinerary sampleItinerary sampleEntry) ∧
    (mergeInsights [sampleItinerary, sampleItineraryB] [sampleEntry])[1]? =
      some sampleItineraryB.plainOut ∧
    (mergeLegInsights [sampleWalkLeg, sampleBusLeg] [⟨"Short walk"⟩])[1]? =
      some ⟨sampleBusLeg, none⟩ := by
  have H := mergeInsights_truncation [sampleItinerary, sampleItineraryB]
    [sampleEntry] (by decide)
  exact ⟨H.1, H.2.1 0 (by decide), H.2.2.1 1 (by decide) (by decide),
    H.2.2.2.2.2 [sampleWalkLeg, sampleBusLeg] [⟨"Short walk"⟩] 1 (by decide)⟩

/-- C4: claimed behavior is that a truncated insight response (fewer
entries than itineraries, or fewer leg insights than legs) leaves the
unmatched tail without insight text and raises nothing.  The merge alone
does behave that way (see the truncation lemmas above), but the search
operation then validates the merged list against the declared response
type, whose insight fields are required, so any unmatched tail makes the
response construction raise and the generic handler answers HTTP 500 --
the same response-type slip as in the total-failure case.  First conjunct:
two routed itineraries and one insight entry.  Second conjunct: one routed
two-leg itinerary and one entry carrying a single leg insight. -/
theorem c4_insight_truncation_gives_500 :
    searchRoutes sampleRequest (.ok []) (.ok [sampleItinerary, sampleItineraryB])
        (.ok [sampleEntry]) 0 =
      .error ⟨500, "An unexpected error occurred while searching for routes"⟩ ∧
    searchRoutes sampleRequest (.ok []) (.ok [sampleItinerary])
        (.ok [sampleEntry]) 0 =
      .error ⟨500, "An unexpected error occurred while searching for routes"⟩ := by
  exact ⟨rfl, rfl⟩

/-- The leg merge keeps the plain legs, in order. -/
lemma mergeLegInsights_toLeg :
    ∀ (legs : List Leg) (ls : List LegInsight),
      (mergeLegInsights legs ls).map LegOut.toLeg = legs := by
  intro legs
  induction legs with
  | nil =>
    intro ls
    rfl
  | cons l legs ih =>
    intro ls
    cases ls with
    | nil => simp [mergeLegInsights, ih]
    | cons s ls => simp [mergeLegInsights, ih]

/-- Enrichment keeps the plain itinerary. -/
lemma enrichItinerary_core (it : Itinerary) (e : ItineraryInsight) :
    (enrichItinerary it e).core = it := by
  cases it
  simp [enrichItinerary, ItineraryOut.core, mergeLegInsights_toLeg]

/-- The degraded view keeps the plain itinerary. -/
lemma plainOut_core (it : Itinerary) : it.plainOut.core = it := by
  cases it
  simp only [Itinerary.plainOut, ItineraryOut.core, List.map_map]
  have hcomp : (LegOut.toLeg ∘ fun l : Leg => (⟨l, none⟩ : LegOut)) = id := rfl
  rw [hcomp, List.map_id]

/-- Degrading a list of itineraries and taking the plain view gives back
the list. -/
lemma plainOuts_core (its : List Itinerary) :
    (its.map Itinerary.plainOut).map ItineraryOut.core = its := by
  induction its with
  | nil => rfl
  | cons it its ih => simp [ih, plainOut_core]

/-- The positional merge keeps the plain itineraries, in order. -/
lemma mergeInsights_core :
    ∀ (its : List Itinerary) (es : List ItineraryInsight),
      (mergeInsights its es).map ItineraryOut.core = its := by
  intro its
  induction its with
  | nil =>
    intro es
    rfl
  | cons it its ih =>
    intro es
    cases es with
    | nil => simp [mergeInsights, ih, plainOut_core]
    | cons e es => simp [mergeInsights, ih, enrichItinerary_core]

/-- A validated itinerary keeps the plain itinerary of the runtime value
it was validated from. -/
lemma ItineraryOut.validate_toItinerary {o : ItineraryOut}
    {w : ItineraryWithInsight} (h : o.validate = some w) :
    w.toItinerary = o.core := by
  unfold ItineraryOut.validate at h
  rcases ho : o.ai_insight with _ | s <;>
    rcases hL : validateLegs o.legs with _ | ws <;>
    simp only [ho, hL] at h <;>
    try cases h
  simp only [ItineraryWithInsight.toItinerary, ItineraryOut.core,
    validateLegs_toLeg hL]

/-- Validation of the final itinerary list keeps the plain itineraries, in
order. -/
lemma validateItineraries_toItinerary :
    ∀ {os : List ItineraryOut} {ws : List ItineraryWithInsight},
      validateItineraries os = some ws →
      ws.map ItineraryWithInsight.toItinerary = os.map ItineraryOut.core := by
  intro os
  induction os with
  | nil =>
    intro ws h
    cases h
    rfl
  | cons o os ih =>
    intro ws h
    rcases hv : o.validate with _ | w <;>
      rcases hr : validateItineraries os with _ | ws2 <;>
      simp only [validateItineraries, hv, hr] at h <;>
      try cases h
    simp only [List.map_cons, ih hr, ItineraryOut.validate_toItinerary hv]

/-- A successful response construction keeps the plain itineraries of the
final list, in order. -/
lemma buildResponse_ok {o d : Coordinates} {fins : List ItineraryOut}
    {t : Int} {resp : RouteSearchResponse}
    (h : buildResponse o d fins t = .ok resp) :
    resp.itineraries.map ItineraryWithInsight.toItinerary =
      fins.map ItineraryOut.core := by
  unfold buildResponse at h
  rcases hv : validateItineraries fins with _ | ws <;> rw [hv] at h <;> cases h
  exact validateItineraries_toItinerary hv

/-- C5: order preservation end to end.  First conjunct: the routing parser
emits one itinerary per response edge, in edge order.  Second conjunct:
the legs of a parsed itinerary are the parsed legs of its node, in order.
Third conjunct: whenever the search operation answers successfully, the
itineraries of the response are exactly the routed itineraries, in the
same order, with the same legs in the same order, insight fields aside. -/
theorem c5_order_preserved :
    (∀ (d : RawData) (i : Nat),
      (parseItinaries d)[i]? =
        (((d.planConnection.getD (some [])).getD [])[i]?).map
          (fun e => parseItinary e.node)) ∧
    (∀ d : RawNode, (parseItinary d).legs = d.legs.map parseLeg) ∧
    (∀ (req : RouteSearchRequest) (stored : Except Unit (List Preference))
        (its : List Itinerary) (insight : InsightOutcome) (t : Int)
        (resp : RouteSearchResponse),
      searchRoutes req stored (.ok its) insight t = .ok resp →
      resp.itineraries.map ItineraryWithInsight.toItinerary = its) := by
  refine ⟨?_, ?_, ?_⟩
  · intro d i
    simp [parseItinaries]
  · intro d
    rfl
  · intro req stored its insight t resp h
    cases insight with
    | failure =>
      have hb := buildResponse_ok h
      rw [hb]
      exact plainOuts_core its
    | ok es =>
      by_cases hM : (mergeInsights its es).isEmpty
      · rw [searchRoutes, if_pos hM] at h
        have hb := buildResponse_ok h
        rw [hb]
        exact plainOuts_core its
      · rw [searchRoutes, if_neg hM] at h
        have hb := buildResponse_ok h
        rw [hb]
        exact mergeInsights_core its es

/-- An insight entry covering both legs of the sample itinerary. -/
def fullEntry : ItineraryInsight := ⟨"Great route", [⟨"walk note"⟩, ⟨"bus note"⟩]⟩

/-- The response of a fully successful sample search. -/
def sampleOkResponse : RouteSearchResponse :=
  ⟨⟨60, 24⟩, ⟨61, 25⟩,
    [⟨0, 2700, 2700, 500, 600, "Great route",
      [⟨sampleWalkLeg, "walk note"⟩, ⟨sampleBusLeg, "bus note"⟩]⟩], 0⟩

/-- C5 witness: a concrete fully successful search returns exactly the
routed itinerary, legs in order, once insight fields are stripped. -/
theorem c5_witness :
    sampleOkResponse.itineraries.map ItineraryWithInsight.toItinerary =
      [sampleItinerary] :=
  c5_order_preserved.2.2 sampleRequest (.ok []) [sampleItinerary]
    (.ok [fullEntry]) 0 sampleOkResponse (by rfl)

end CommuteAi
